import Mathlib

/-
  Verification development for the condor diffraction simulator
  (src/src/source.py, src/propagator/propagator.py).

  The Python code is shallowly embedded: floats are modelled as exact
  rationals (or reals where the properties are analytic), numpy arrays as
  lists, `logging` calls as explicit event lists, and `exit(1)` as an
  explicit `exited` flag.  A numpy complex entry is `some (re, im)` when
  finite and `none` when non-finite (NaN or Inf in either component).
-/

set_option autoImplicit false

namespace Condor

/-! ## Physical constants (scipy.constants, exact 2019-SI decimal values) -/

/-- Speed of light in vacuum, scipy.constants.c (m/s). -/
def const_c : ℚ := 299792458

/-- Planck constant, scipy.constants.h (J s), 6.62607015e-34. -/
def const_h : ℚ := 662607015 / 10 ^ 42

/-- Elementary charge, scipy.constants.e (C), 1.602176634e-19. -/
def const_e : ℚ := 1602176634 / 10 ^ 28

/-! ## Logging and process model -/

/-- One call to the logger; constructors are named after the call sites in
source.py and propagator.py. -/
inductive LogEvent where
  | errorMissingKeyword (k : String)
  | errorIllegalKeyword (k : String)
  | errorPulseEnergyNonPositive
  | warningPulseEnergyNonPositive
  | errorInvalidUnit (u : String)
  | errorInvalidProfileModel
  | errorPhotonNotInitialized
  | errorInvalidSampleType
  | errorIllegalInputArgument
  deriving DecidableEq, Repr

/-- Runtime errors a Python method can raise when it touches missing
attributes or bad indices.  `configurationError` is included so that the
statements can distinguish the error kinds the spec names. -/
inductive PyError where
  | attributeError
  | indexError
  | configurationError
  deriving DecidableEq, Repr

/-! ## Photon (source.py lines 135-163) -/

/-- State of a Photon instance: the `_energy` attribute, `none` while the
attribute was never assigned. -/
structure PhotonState where
  energy : Option ℚ
  deriving DecidableEq, Repr

/-- Photon.set_wavelength: stores `_energy = c*h/wavelength`
(source.py line 162-163). -/
def Photon.set_wavelength (wavelength : ℚ) : ℚ :=
  const_c * const_h / wavelength

/-- Photon.__init__ (source.py lines 136-141).  The keyword arguments are
modelled as three options; the Python code checks membership of
"wavelength", then "energy", then "energy_eV" in that order and uses the
first present, ignoring the rest; if none is present it logs an error and
returns with `_energy` unassigned.  `set_energy(x,"J")` stores `x`,
`set_energy(x,"eV")` stores `x * e`. -/
def photonInit (wavelength energy energy_eV : Option ℚ) :
    PhotonState × List LogEvent :=
  match wavelength with
  | some wl => (⟨some (Photon.set_wavelength wl)⟩, [])
  | none =>
    match energy with
    | some en => (⟨some en⟩, [])
    | none =>
      match energy_eV with
      | some ev => (⟨some (ev * const_e)⟩, [])
      | none => (⟨none⟩, [LogEvent.errorPhotonNotInitialized])

/-- Photon.get_wavelength (source.py lines 159-160): returns `c*h/_energy`;
reading the attribute of an uninitialized Photon raises AttributeError. -/
def Photon.get_wavelength (p : PhotonState) : Except PyError ℚ :=
  match p.energy with
  | none => Except.error PyError.attributeError
  | some en => Except.ok (const_c * const_h / en)

/-- Photon.get_energy with unit "J" (source.py lines 143-145). -/
def Photon.get_energy_J (p : PhotonState) : Except PyError ℚ :=
  match p.energy with
  | none => Except.error PyError.attributeError
  | some en => Except.ok en

/-! ## Keyword validation (Source.__init__, source.py lines 32-45) -/

/-- Modelled from the spec: condortools.check_input is not part of the
given sources; per §4.4 and §9 it is the shared keyword-set validator that
returns the required keywords missing from the supplied set and the supplied
keywords that are neither required nor optional. -/
def check_input (keys req opt : List String) : List String × List String :=
  (req.filter (fun k => ¬ keys.contains k),
   keys.filter (fun k => ¬ (req.contains k ∨ opt.contains k)))

/-- Required keywords of Source.__init__ (source.py line 35). -/
def source_req_keys : List String := ["wavelength", "focus_diameter", "pulse_energy"]

/-- Optional keywords of Source.__init__ (source.py line 36). -/
def source_opt_keys : List String :=
  ["pulse_energy_variation", "pulse_energy_spread", "pulse_energy_variation_n",
   "profile_model"]

/-- The keyword-validation phase of Source.__init__ (source.py lines 34-45):
logs one error per missing keyword and calls exit(1) if any required keyword
is missing; otherwise logs one error per illegal keyword and calls exit(1)
if any supplied keyword is unrecognized.  Returns the emitted log events and
whether the process exited. -/
def sourceInitKeywordCheck (keys : List String) : List LogEvent × Bool :=
  let mi := (check_input keys source_req_keys source_opt_keys).1
  let il := (check_input keys source_req_keys source_opt_keys).2
  if mi.length > 0 then (mi.map LogEvent.errorMissingKeyword, true)
  else if il.length > 0 then (il.map LogEvent.errorIllegalKeyword, true)
  else ([], false)

/-! ## Pulse-energy variation (Source._next_pulse_energy, source.py 112-131) -/

/-- The `_mode` attribute of the Variation object: `None`, the deterministic
"range" sweep, or a named random distribution. -/
inductive VariationMode where
  | vnone
  | range
  | random (name : String)
  deriving DecidableEq, Repr

/-- Whether `_mode in [None, "range"]` (source.py line 120). -/
def VariationMode.isDeterministic : VariationMode → Bool
  | VariationMode.vnone => true
  | VariationMode.range => true
  | VariationMode.random _ => false

/-- Result of one call to Source._next_pulse_energy: the `pulse_energy`
attribute after the call (`none` if it was never assigned), the log events
emitted, and whether exit(1) was called (the function contains no exit
call, so this is always false; the flag kept so that fatality is the same
notion as in Source.__init__). -/
structure NextPEResult where
  pulse_energy : Option ℚ
  log : List LogEvent
  exited : Bool
  deriving DecidableEq, Repr

/-- The recursive retry branch of Source._next_pulse_energy for random
modes (source.py lines 126-131): while the drawn value is ≤ 0, log a warning
and draw again.  The successive return values of the spec-modelled
`Variation.get` are supplied as the list `draws`; an exhausted list models
cutting off the (unbounded) Python recursion, leaving the attribute
unchanged. -/
def nextPulseEnergyRandom (pe0 : Option ℚ) : List ℚ → NextPEResult
  | [] => ⟨pe0, [], false⟩
  | p :: rest =>
    if p ≤ 0 then
      let r := nextPulseEnergyRandom pe0 rest
      ⟨r.pulse_energy, LogEvent.warningPulseEnergyNonPositive :: r.log, r.exited⟩
    else ⟨some p, [], false⟩

/-- Source._next_pulse_energy (source.py lines 117-131).  `draws` is the
stream of values returned by the successive `Variation.get` calls (modelled
from the spec, §4.3: mode None returns the mean unchanged, mode "range"
returns the current sweep value, random modes draw from the configured
distribution); `pe0` is the `pulse_energy` attribute before the call.
Deterministic modes look at the single value `draws.head`: if it is ≤ 0 an
error is logged and the attribute is left unchanged (no exit, no retry);
random modes retry through the stream. -/
def nextPulseEnergy (mode : VariationMode) (draws : List ℚ) (pe0 : Option ℚ) :
    NextPEResult :=
  if mode.isDeterministic then
    match draws with
    | [] => ⟨pe0, [], false⟩
    | p :: _ =>
      if p ≤ 0 then ⟨pe0, [LogEvent.errorPulseEnergyNonPositive], false⟩
      else ⟨some p, [], false⟩
  else nextPulseEnergyRandom pe0 draws

/-! ## Input._reconfigure sample dispatch (propagator.py lines 48-56) -/

/-- The three sample variants Input._reconfigure can construct. -/
inductive SampleVariant where
  | sphere
  | spheroid
  | map3d
  deriving DecidableEq, Repr

/-- Result of the sample-selection part of Input._reconfigure: the `sample`
attribute (`none` if never assigned), the log events, and whether the
process exited (the code path contains no exit call). -/
structure ReconfigureResult where
  sample : Option SampleVariant
  log : List LogEvent
  exited : Bool
  deriving DecidableEq, Repr

/-- Input._reconfigure sample dispatch (propagator.py lines 48-56): the
three recognized sample_type strings assign the corresponding variant; any
other string logs an error and returns, leaving `self.sample` unassigned. -/
def inputReconfigureSample (sample_type : String) : ReconfigureResult :=
  if sample_type = "uniform_sphere" then ⟨some SampleVariant.sphere, [], false⟩
  else if sample_type = "uniform_spheroid" then ⟨some SampleVariant.spheroid, [], false⟩
  else if sample_type = "map3d" then ⟨some SampleVariant.map3d, [], false⟩
  else ⟨none, [LogEvent.errorInvalidSampleType], false⟩

/-! ## Pulse profiles and intensity (source.py lines 64-110) -/

open Real in
/-- Modelled from the spec: condortools.gaussian_2dnorm is not part of the
given sources; per §4.2 it is the closed-form 2D-normalized Gaussian of
radius with parameter sigma, density `exp(-r²/(2σ²)) / (2πσ²)`. -/
noncomputable def gaussian_2dnorm (r sigma : ℝ) : ℝ :=
  (1 / (2 * π * sigma ^ 2)) * Real.exp (-(r ^ 2) / (2 * sigma ^ 2))

open Real in
/-- Modelled from the spec: condortools.pseudo_lorentzian_2dnorm is not part
of the given sources; per §4.2 it is the closed-form 2D-normalized
Lorentzian of radius with parameter sigma,
density `(σ/(2π)) · (r² + σ²)^(-3/2)`. -/
noncomputable def pseudo_lorentzian_2dnorm (r sigma : ℝ) : ℝ :=
  (sigma / (2 * π)) * (r ^ 2 + sigma ^ 2) ^ (-(3 : ℝ) / 2)

/-- The `_profile_model` attribute after Source.set_profile validated it
(source.py lines 86-91): `None` or one of the three recognized strings. -/
inductive ProfileModel where
  | pnone
  | top_hat
  | pseudo_lorentzian
  | gaussian
  deriving DecidableEq, Repr

/-- Source.set_profile (source.py lines 86-91): `None` and the three
recognized strings are stored; any other string logs an error and calls
exit(1).  Returns the stored model (`none` on exit), the log, and the exit
flag. -/
def set_profile (profile_model : Option String) :
    Option ProfileModel × List LogEvent × Bool :=
  match profile_model with
  | none => (some ProfileModel.pnone, [], false)
  | some s =>
    if s = "top_hat" then (some ProfileModel.top_hat, [], false)
    else if s = "pseudo_lorentzian" then (some ProfileModel.pseudo_lorentzian, [], false)
    else if s = "gaussian" then (some ProfileModel.gaussian, [], false)
    else (none, [LogEvent.errorInvalidProfileModel], true)

open Real in
/-- Source.get_profile (source.py lines 93-110): the radial areal-density
function selected by the profile model.  With no model the density is the
constant `1/(π(d/2)²)` at every radius; top_hat is that constant inside the
hard-edge radius `d/2` and 0 outside; pseudo_lorentzian uses `σ = d/2`;
gaussian uses `σ = d/(2√(2 ln 2))` (d is the FWHM). -/
noncomputable def get_profile (pm : ProfileModel) (focus_diameter : ℝ) : ℝ → ℝ :=
  match pm with
  | ProfileModel.pnone => fun _ => 1 / (π * (focus_diameter / 2) ^ 2)
  | ProfileModel.top_hat => fun r =>
      if r < focus_diameter / 2 then 1 / (π * (focus_diameter / 2) ^ 2) else 0
  | ProfileModel.pseudo_lorentzian => fun r =>
      pseudo_lorentzian_2dnorm r (focus_diameter / 2)
  | ProfileModel.gaussian => fun r =>
      gaussian_2dnorm r (focus_diameter / (2 * Real.sqrt (2 * Real.log 2)))

/-- The part of a Source instance that get_intensity reads: the photon
(already initialized from the wavelength), the focus diameter, the
validated profile model, and the current realized pulse energy. -/
structure SourceState where
  photon_energy : ℚ
  focus_diameter : ℝ
  profile_model : ProfileModel
  pulse_energy : ℝ

/-- Source.get_intensity (source.py lines 64-81): with position
`[x, y, z]`, computes `r = sqrt(y² + z²)`, the base value
`profile(r) * pulse_energy` in J/m², and converts it into the requested
unit; an unrecognized unit string logs an error and makes the method
return `None`. -/
noncomputable def get_intensity (s : SourceState) (position : ℝ × ℝ × ℝ)
    (unit : String) : Option ℝ × List LogEvent :=
  let r := Real.sqrt (position.2.1 ^ 2 + position.2.2 ^ 2)
  let I := get_profile s.profile_model s.focus_diameter r * s.pulse_energy
  if unit = "J/m2" then (some I, [])
  else if unit = "ph/m2" then (some (I / (s.photon_energy : ℝ)), [])
  else if unit = "J/um2" then (some (I * (1 / 10 ^ 12)), [])
  else if unit = "mJ/um2" then (some (I * (1 / 10 ^ 9)), [])
  else (none, [LogEvent.errorInvalidUnit unit])

/-! ## Output (propagator.py lines 58-97) -/

/-- One numpy complex array entry: `some (re, im)` when finite, `none` when
NaN or Inf appears in either component (numpy.isfinite is false). -/
abbrev CAmp : Type := Option (ℚ × ℚ)

/-- A 2-dimensional complex amplitude array. -/
abbrev AmpMat : Type := List (List CAmp)

/-- A 2-dimensional real array whose entries may be NaN (`none`). -/
abbrev RealMat : Type := List (List (Option ℚ))

/-- Whether every entry of the array is finite. -/
def AmpMat.allFinite (A : AmpMat) : Bool :=
  A.all (fun row => row.all (fun a => Option.isSome a))

/-- The in-place NaN sanitization `A[numpy.isfinite(A)==False] = 0.`
(propagator.py line 96): every non-finite entry becomes 0, finite entries
are untouched. -/
def AmpMat.sanitize (A : AmpMat) : AmpMat :=
  A.map (fun row => row.map (fun a =>
    match a with
    | some v => some v
    | none => some ((0 : ℚ), (0 : ℚ))))

/-- Entrywise `abs(A)**2`: squared modulus of each entry; non-finite entries
stay non-finite (numpy arithmetic on NaN yields NaN). -/
def AmpMat.absSq (A : AmpMat) : RealMat :=
  A.map (fun row => row.map (fun a =>
    match a with
    | some v => some (v.1 ^ 2 + v.2 ^ 2)
    | none => none))

/-- Modelled from the spec: detector.py is not part of the given sources;
per §4.6, Detector.detect_photons is a pure function of its input intensity
array and the detector geometry, applying pixel-area scaling (the binning
aggregation is absorbed into the single scale factor of the binned pixel).
NaN entries propagate through the scaling. -/
structure DetectorState where
  pixel_area : ℚ
  deriving DecidableEq, Repr

/-- Modelled from the spec: Detector.detect_photons converts an intensity
array into photon counts per binned pixel by pixel-area scaling, purely. -/
def DetectorState.detect_photons (d : DetectorState) (I : RealMat) : RealMat :=
  I.map (fun row => row.map (fun x => x.map (fun v => v * d.pixel_area)))

/-- The part of an Input instance that the Output accessors of the claims
read: the detector. -/
structure InputState where
  detector : DetectorState
  deriving DecidableEq, Repr

/-- The argument passed to Output.__init__: either an Input instance or any
other Python value. -/
inductive OutputArg where
  | input (inp : InputState)
  | notInput
  deriving DecidableEq, Repr

/-- State of an Output instance: `input_object` and `amplitudes` are `none`
while the attributes were never assigned. -/
structure OutputState where
  input_object : Option InputState
  amplitudes : Option (List AmpMat)
  deriving DecidableEq

/-- Output.__init__ (propagator.py lines 64-79).  A non-Input argument logs
an error and returns normally without assigning any attribute.  For an
Input argument, the amplitude arrays produced by `sample.propagate()` (the
sample code is outside the given sources; its result enters as the
parameter `propagated`) are stored.  No exception is raised on either
path. -/
def outputInit (arg : OutputArg) (propagated : List AmpMat) :
    OutputState × List LogEvent :=
  match arg with
  | OutputArg.notInput =>
    (⟨none, none⟩, [LogEvent.errorIllegalInputArgument])
  | OutputArg.input inp =>
    (⟨some inp, some propagated⟩, [])

/-- Output.get_intensity_pattern (propagator.py lines 81-88):
`detector.detect_photons(abs(amplitudes[i])**2)`.  Touching the unassigned
`input_object` or `amplitudes` attribute raises AttributeError; an
out-of-range index raises IndexError. -/
def Output.get_intensity_pattern (st : OutputState) (i : ℕ) :
    Except PyError RealMat :=
  match st.input_object, st.amplitudes with
  | some inp, some amps =>
    match amps.get? i with
    | some A => Except.ok (inp.detector.detect_photons (AmpMat.absSq A))
    | none => Except.error PyError.indexError
  | _, _ => Except.error PyError.attributeError

/-- Output.get_real_space_image (propagator.py lines 90-97).  The numpy
composition `fftshift ∘ ifftn ∘ fftshift` is external library code and
enters as the parameter `T`.  The method first zeroes the non-finite
entries of `amplitudes[i]` IN PLACE (line 96 writes through the view `A`),
then returns the transform of the now-sanitized stored array; the returned
pair is (return value, Output state after the call). -/
def Output.get_real_space_image (T : AmpMat → AmpMat) (st : OutputState)
    (i : ℕ) : Except PyError (AmpMat × OutputState) :=
  match st.amplitudes with
  | none => Except.error PyError.attributeError
  | some amps =>
    match amps.get? i with
    | none => Except.error PyError.indexError
    | some A =>
      let A2 := AmpMat.sanitize A
      Except.ok (T A2, { st with amplitudes := some (amps.set i A2) })

/-- Output.get_linear_sampling_ratio (propagator.py lines 99-117): reads
`input_object`; with the attribute unassigned the call raises
AttributeError.  The numeric branch (Nyquist pixel size over binned pixel
size) is outside the claims and is abstracted by the parameter `ratio`. -/
def Output.get_linear_sampling_ratio (ratio : InputState → Option ℚ)
    (st : OutputState) : Except PyError (Option ℚ) :=
  match st.input_object with
  | none => Except.error PyError.attributeError
  | some inp => Except.ok (ratio inp)

/-- Output.get_full_period_edge_resolution (propagator.py lines 119-130):
reads `input_object`; with the attribute unassigned the call raises
AttributeError.  The resolution formula is outside the claims and is
abstracted by the parameter `res`. -/
def Output.get_full_period_edge_resolution (res : InputState → ℚ)
    (st : OutputState) : Except PyError ℚ :=
  match st.input_object with
  | none => Except.error PyError.attributeError
  | some inp => Except.ok (res inp)

/-! ## The plane integral of a radial density (for C4) -/

/-- The plane over which the areal densities are integrated. -/
abbrev Plane : Type := EuclideanSpace ℝ (Fin 2)

open MeasureTheory in
/-- The density ρ of radius integrates to 1 over the infinite plane: the
map x ↦ ρ(‖x‖) on ℝ² is integrable and its integral equals 1. -/
def IntegratesToOneOverPlane (ρ : ℝ → ℝ) : Prop :=
  Integrable (fun x : Plane => ρ ‖x‖) volume ∧ (∫ x : Plane, ρ ‖x‖) = 1

theorem finrank_plane : Module.finrank ℝ Plane = 2 :=
  finrank_euclideanSpace_fin

open MeasureTheory Real in
theorem volume_ball_plane (R : ℝ) (hR : 0 ≤ R) :
    (volume (Metric.ball (0 : Plane) R)).toReal = π * R ^ 2 := by
  rw [EuclideanSpace.volume_ball, Fintype.card_fin]
  have hg : Real.Gamma (((2 : ℕ) : ℝ) / 2 + 1) = 1 := by
    rw [show (((2 : ℕ) : ℝ) / 2 + 1) = ((1 : ℕ) : ℝ) + 1 by norm_num,
        Real.Gamma_nat_eq_factorial]
    simp
  rw [hg, Real.sq_sqrt Real.pi_pos.le, div_one, ENNReal.toReal_mul,
      ENNReal.toReal_pow, ENNReal.toReal_ofReal hR,
      ENNReal.toReal_ofReal Real.pi_pos.le]
  ring

open MeasureTheory Real in
/-- Polar decomposition of the plane integral of a radial function:
the area element contributes the factor 2πr. -/
theorem plane_integral_radial (f : ℝ → ℝ) :
    (∫ x : Plane, f ‖x‖) = 2 * π * ∫ y in Set.Ioi (0 : ℝ), y * f y := by
  rw [MeasureTheory.integral_fun_norm_addHaar (volume : Measure Plane) f,
      finrank_plane, volume_ball_plane 1 zero_le_one]
  norm_num [smul_eq_mul]
  ring

/-! ## Helper lemmas -/

theorem list_set_of_get?_eq {α : Type} :
    ∀ (l : List α) (i : ℕ) (a : α), l.get? i = some a → l.set i a = l
  | [], i, a, h => by cases h
  | x :: xs, 0, a, h => by
    simp only [List.get?] at h
    cases h
    rfl
  | x :: xs, i + 1, a, h => by
    simp only [List.get?] at h
    simp only [List.set]
    rw [list_set_of_get?_eq xs i a h]

theorem AmpMat.sanitize_of_allFinite (A : AmpMat) (h : A.allFinite = true) :
    AmpMat.sanitize A = A := by
  unfold AmpMat.allFinite at h
  rw [List.all_eq_true] at h
  unfold AmpMat.sanitize
  have hrow : ∀ row ∈ A, (row.map (fun a =>
      match a with
      | some v => some v
      | none => some ((0 : ℚ), (0 : ℚ)))) = row := by
    intro row hr
    have h2 := h row hr
    rw [List.all_eq_true] at h2
    have hent : ∀ a ∈ row, (match a with
        | some v => some v
        | none => some ((0 : ℚ), (0 : ℚ))) = id a := by
      intro a ha
      have h3 := h2 a ha
      cases a with
      | some v => rfl
      | none => simp at h3
    rw [List.map_congr_left hent, List.map_id]
  have hA : ∀ row ∈ A, (fun row => row.map (fun a =>
      match a with
      | some v => some v
      | none => some ((0 : ℚ), (0 : ℚ)))) row = id row := fun row hr => hrow row hr
  rw [List.map_congr_left hA, List.map_id]

/-! ## Normalization of the individual profile variants -/

open MeasureTheory Real in
theorem tophat_integrates_to_one (R : ℝ) (hR : 0 < R) :
    IntegratesToOneOverPlane (fun r => if r < R then 1 / (π * R ^ 2) else 0) := by
  have hfun : (fun x : Plane => if ‖x‖ < R then 1 / (π * R ^ 2) else 0) =
      (Metric.ball (0 : Plane) R).indicator (fun _ => 1 / (π * R ^ 2)) := by
    funext x
    by_cases h : ‖x‖ < R
    · rw [Set.indicator_of_mem (by rwa [mem_ball_zero_iff]), if_pos h]
    · rw [Set.indicator_of_not_mem (by rwa [mem_ball_zero_iff]), if_neg h]
  constructor
  · rw [hfun, integrable_indicator_iff measurableSet_ball]
    exact integrableOn_const.2 (Or.inr measure_ball_lt_top)
  · rw [hfun, integral_indicator_const _ measurableSet_ball,
        smul_eq_mul, volume_ball_plane R hR.le]
    have hπ := Real.pi_ne_zero
    field_simp

open MeasureTheory in
theorem const_not_integrable_plane (c : ℝ) (hc : c ≠ 0) :
    ¬ Integrable (fun _ : Plane => c) volume := by
  rw [integrable_const_iff]
  rintro (h | h)
  · exact hc h
  · rw [measure_univ_of_isAddLeftInvariant] at h
    exact absurd h (lt_irrefl _)

open MeasureTheory Real in
theorem gaussian2d_integrates_to_one (σ : ℝ) (hσ : 0 < σ) :
    IntegratesToOneOverPlane (fun r => gaussian_2dnorm r σ) := by
  have hb : (0 : ℝ) < 1 / (2 * σ ^ 2) := by positivity
  have hfun : (fun x : Plane => gaussian_2dnorm ‖x‖ σ) =
      fun x : Plane => (1 / (2 * π * σ ^ 2)) *
        Real.exp (-(1 / (2 * σ ^ 2)) * ‖x‖ ^ 2) := by
    funext x
    rw [gaussian_2dnorm]
    congr 1
    ring_nf
  have hintexp : Integrable
      (fun v : Plane => Real.exp (-(1 / (2 * σ ^ 2)) * ‖v‖ ^ 2)) volume := by
    have h1 := GaussianFourier.integrable_cexp_neg_mul_sq_norm_add
      (V := Plane) (b := ((1 / (2 * σ ^ 2) : ℝ) : ℂ))
      (by rw [Complex.ofReal_re]; exact hb) 0 (0 : Plane)
    simp only [zero_mul, add_zero] at h1
    refine h1.norm.congr (Filter.Eventually.of_forall fun v => ?_)
    show ‖Complex.exp (-((1 / (2 * σ ^ 2) : ℝ) : ℂ) * ((‖v‖ : ℝ) : ℂ) ^ 2)‖ =
      Real.exp (-(1 / (2 * σ ^ 2)) * ‖v‖ ^ 2)
    have hz : (-((1 / (2 * σ ^ 2) : ℝ) : ℂ) * ((‖v‖ : ℝ) : ℂ) ^ 2) =
        (((-(1 / (2 * σ ^ 2)) * ‖v‖ ^ 2 : ℝ)) : ℂ) := by
      push_cast
      ring
    rw [Complex.norm_eq_abs, Complex.abs_exp, hz, Complex.ofReal_re]
  constructor
  · rw [hfun]
    exact hintexp.const_mul _
  · rw [hfun, MeasureTheory.integral_mul_left,
        GaussianFourier.integral_rexp_neg_mul_sq_norm (V := Plane) hb,
        finrank_plane]
    have hπ := Real.pi_ne_zero
    have hσ2 : σ ^ 2 ≠ 0 := by positivity
    norm_num [Real.rpow_one]
    field_simp
    ring

open MeasureTheory Real in
theorem lorentzian2d_integrates_to_one (σ : ℝ) (hσ : 0 < σ) :
    IntegratesToOneOverPlane (fun r => pseudo_lorentzian_2dnorm r σ) := by
  have hπ := Real.pi_ne_zero
  have hderiv : ∀ y : ℝ, y ∈ Set.Ici (0 : ℝ) →
      HasDerivAt (fun t : ℝ => -((t ^ 2 + σ ^ 2) ^ (-(1 / 2 : ℝ))))
        (y * (y ^ 2 + σ ^ 2) ^ (-(3 : ℝ) / 2)) y := by
    intro y hy
    have hbase : HasDerivAt (fun t : ℝ => t ^ 2 + σ ^ 2) (2 * y) y := by
      simpa using (hasDerivAt_pow 2 y).add_const (σ ^ 2)
    have hpos : (0 : ℝ) < y ^ 2 + σ ^ 2 := by positivity
    have h1 := (hbase.rpow_const (p := -(1 / 2 : ℝ)) (Or.inl hpos.ne')).neg
    convert h1 using 1
    rw [show (-(1 / 2 : ℝ) - 1) = -(3 : ℝ) / 2 by norm_num]
    ring
  have hnonneg : ∀ y : ℝ, y ∈ Set.Ioi (0 : ℝ) →
      0 ≤ y * (y ^ 2 + σ ^ 2) ^ (-(3 : ℝ) / 2) := by
    intro y hy
    have hy0 : (0 : ℝ) < y := hy
    positivity
  have htend : Filter.Tendsto (fun t : ℝ => -((t ^ 2 + σ ^ 2) ^ (-(1 / 2 : ℝ))))
      Filter.atTop (nhds 0) := by
    have h1 : Filter.Tendsto (fun t : ℝ => t ^ 2 + σ ^ 2)
        Filter.atTop Filter.atTop :=
      Filter.tendsto_atTop_add_const_right _ (σ ^ 2)
        (Filter.tendsto_pow_atTop (by norm_num))
    have h2 := ((tendsto_rpow_neg_atTop (by norm_num : (0:ℝ) < 1 / 2)).comp h1).neg
    simpa using h2
  have hrad : ∫ y in Set.Ioi (0 : ℝ), y * (y ^ 2 + σ ^ 2) ^ (-(3 : ℝ) / 2) = 1 / σ := by
    rw [MeasureTheory.integral_Ioi_of_hasDerivAt_of_nonneg' hderiv
      (fun y hy => hnonneg y hy) htend]
    rw [show ((0 : ℝ) ^ 2 + σ ^ 2) = σ ^ 2 by ring]
    rw [Real.rpow_neg (by positivity), ← Real.sqrt_eq_rpow, Real.sqrt_sq hσ.le]
    ring
  have hg3 : Integrable (fun x : Plane => ((1 : ℝ) + ‖x‖ ^ 2) ^ (-(3 : ℝ) / 2))
      volume :=
    integrable_rpow_neg_one_add_norm_sq (E := Plane) (μ := volume) (r := 3)
      (by rw [finrank_plane]; norm_num)
  have hcomp : Integrable
      (fun x : Plane => ((1 : ℝ) + ‖σ⁻¹ • x‖ ^ 2) ^ (-(3 : ℝ) / 2)) volume :=
    (integrable_comp_smul_iff (volume : Measure Plane)
      (fun x : Plane => ((1 : ℝ) + ‖x‖ ^ 2) ^ (-(3 : ℝ) / 2))
      (inv_ne_zero hσ.ne')).2 hg3
  have hfun : (fun x : Plane => pseudo_lorentzian_2dnorm ‖x‖ σ) =
      fun x : Plane => (σ / (2 * π) * (σ ^ 2) ^ (-(3 : ℝ) / 2)) *
        ((1 : ℝ) + ‖σ⁻¹ • x‖ ^ 2) ^ (-(3 : ℝ) / 2) := by
    funext x
    rw [pseudo_lorentzian_2dnorm, norm_smul, norm_inv, Real.norm_eq_abs,
        abs_of_pos hσ, mul_pow]
    have hbase : ‖x‖ ^ 2 + σ ^ 2 = σ ^ 2 * ((1 : ℝ) + (σ⁻¹) ^ 2 * ‖x‖ ^ 2) := by
      field_simp
      ring
    rw [hbase, Real.mul_rpow (by positivity) (by positivity)]
    ring
  constructor
  · rw [hfun]
    exact hcomp.const_mul _
  · rw [plane_integral_radial (fun r => pseudo_lorentzian_2dnorm r σ)]
    have hfy : (fun y : ℝ => y * pseudo_lorentzian_2dnorm y σ) =
        fun y : ℝ => (σ / (2 * π)) * (y * (y ^ 2 + σ ^ 2) ^ (-(3 : ℝ) / 2)) := by
      funext y
      rw [pseudo_lorentzian_2dnorm]
      ring
    rw [hfy, MeasureTheory.integral_mul_left, hrad]
    field_simp

/-! ## Claim theorems -/

/-- C1 counterexample: in the deterministic mode `None`, a realization ≤ 0
(here the mean 0, which `Variation.get` returns unchanged) does NOT make
the process exit — `_next_pulse_energy` only logs an error and returns,
contradicting the claim that this is a fatal configuration error. -/
theorem c1_counterexample :
    ¬ ((nextPulseEnergy VariationMode.vnone [0] none).exited = true) ∧
    nextPulseEnergy VariationMode.vnone [0] none =
      ⟨none, [LogEvent.errorPulseEnergyNonPositive], false⟩ := by
  exact ⟨by decide, by decide⟩

/-- C1 (amended): the per-shot pulse-energy update treats a realization
≤ 0 asymmetrically by mode: in the deterministic modes a realization ≤ 0
causes a logged error without retry and without exiting, leaving
pulse_energy unassigned/unchanged; in the random modes each realization
≤ 0 causes a logged warning and a retry, repeating until a positive value
is obtained; and the stored pulse_energy is only ever assigned a positive
value. -/
theorem c1_pulse_energy_update_asymmetry :
    (∀ mode : VariationMode, mode.isDeterministic = true →
      ∀ (p : ℚ) (rest : List ℚ) (pe0 : Option ℚ), p ≤ 0 →
        nextPulseEnergy mode (p :: rest) pe0 =
          ⟨pe0, [LogEvent.errorPulseEnergyNonPositive], false⟩) ∧
    (∀ (name : String) (neg : List ℚ) (p : ℚ) (rest : List ℚ) (pe0 : Option ℚ),
      (∀ q ∈ neg, q ≤ 0) → 0 < p →
        nextPulseEnergy (VariationMode.random name) (neg ++ p :: rest) pe0 =
          ⟨some p,
           List.replicate neg.length LogEvent.warningPulseEnergyNonPositive,
           false⟩) ∧
    (∀ (mode : VariationMode) (draws : List ℚ) (pe0 : Option ℚ),
      (∀ q, pe0 = some q → 0 < q) →
      ∀ p, (nextPulseEnergy mode draws pe0).pulse_energy = some p → 0 < p) := by
  refine ⟨?_, ?_, ?_⟩
  · intro mode hdet p rest pe0 hp
    simp [nextPulseEnergy, hdet, hp]
  · intro name neg
    induction neg with
    | nil =>
      intro p rest pe0 _ hp
      simp [nextPulseEnergy, VariationMode.isDeterministic, nextPulseEnergyRandom,
            not_le.mpr hp]
    | cons q qs ih =>
      intro p rest pe0 hneg hp
      have hq : q ≤ 0 := hneg q (List.mem_cons_self q qs)
      have hqs : ∀ x ∈ qs, x ≤ 0 := fun x hx => hneg x (List.mem_cons_of_mem q hx)
      have hrec := ih p rest pe0 hqs hp
      simp only [nextPulseEnergy, VariationMode.isDeterministic, Bool.false_eq_true,
        if_false, List.cons_append, nextPulseEnergyRandom, if_pos hq,
        List.append_eq] at hrec ⊢
      rw [hrec]
      simp [List.replicate_succ]
  · intro mode draws pe0 hpe0 p
    cases hdet : mode.isDeterministic with
    | true =>
      cases draws with
      | nil =>
        simp only [nextPulseEnergy, hdet, if_pos]
        exact fun h => hpe0 p h
      | cons q rest =>
        simp only [nextPulseEnergy, hdet, if_pos]
        by_cases hq : q ≤ 0
        · rw [if_pos hq]
          exact fun h => hpe0 p h
        · rw [if_neg hq]
          intro h
          cases h
          exact lt_of_not_le hq
    | false =>
      simp only [nextPulseEnergy, hdet]
      rw [if_neg (by simp)]
      induction draws with
      | nil => exact fun h => hpe0 p h
      | cons q rest ih =>
        simp only [nextPulseEnergyRandom]
        by_cases hq : q ≤ 0
        · rw [if_pos hq]
          exact ih
        · rw [if_neg hq]
          intro h
          cases h
          exact lt_of_not_le hq

/-- C1 witness: a random-mode run whose first draw is 0 and second draw is
5 warns once, retries, and stores 5. -/
theorem c1_witness :
    ((∀ q ∈ ([0] : List ℚ), q ≤ 0) ∧ (0 : ℚ) < 5) ∧
    nextPulseEnergy (VariationMode.random "normal") [0, 5] none =
      ⟨some 5, [LogEvent.warningPulseEnergyNonPositive], false⟩ := by
  refine ⟨⟨by decide, by norm_num⟩, ?_⟩
  have h := c1_pulse_energy_update_asymmetry.2.1 "normal" [0] 5 [] none
    (by decide) (by norm_num)
  simpa using h

/-- C2 counterexample: with a single 1×1 amplitude array whose entry is
non-finite, get_intensity_pattern returns NaN before the call, but calling
get_real_space_image zeroes the stored entry in place, and the subsequent
get_intensity_pattern returns 0 — the accessor mutates the stored
amplitudes, contradicting the claim. -/
theorem c2_counterexample :
    Output.get_intensity_pattern
        ⟨some ⟨⟨1⟩⟩, some [[[(none : CAmp)]]]⟩ 0 =
      Except.ok [[(none : Option ℚ)]] ∧
    Output.get_real_space_image id ⟨some ⟨⟨1⟩⟩, some [[[(none : CAmp)]]]⟩ 0 =
      Except.ok ([[some ((0 : ℚ), (0 : ℚ))]],
        ⟨some ⟨⟨1⟩⟩, some [[[some ((0 : ℚ), (0 : ℚ))]]]⟩) ∧
    Output.get_intensity_pattern
        ⟨some ⟨⟨1⟩⟩, some [[[some ((0 : ℚ), (0 : ℚ))]]]⟩ 0 =
      Except.ok [[some (0 : ℚ)]] := by
  refine ⟨rfl, rfl, ?_⟩
  show Except.ok ([[some (((0:ℚ)^2 + (0:ℚ)^2) * 1)]]) = Except.ok [[some (0:ℚ)]]
  norm_num

/-- C2 (amended): get_real_space_image(i) returns the transform T (the
fftshift/ifftn composition) of the amplitude field with all non-finite
entries replaced by zero, but performs that replacement IN PLACE on the
stored amplitudes; when the amplitude data is entirely finite the stored
state is unchanged, the accessor is pure, and a subsequent
get_intensity_pattern is unaffected. -/
theorem c2_real_space_image_sanitizes_in_place
    (T : AmpMat → AmpMat) (st : OutputState) (amps : List AmpMat) (i : ℕ)
    (A : AmpMat) (hamps : st.amplitudes = some amps) (hA : amps.get? i = some A) :
    Output.get_real_space_image T st i =
      Except.ok (T (AmpMat.sanitize A),
        { st with amplitudes := some (amps.set i (AmpMat.sanitize A)) }) ∧
    (A.allFinite = true →
      Output.get_real_space_image T st i = Except.ok (T A, st) ∧
      ∀ (ret : AmpMat) (st2 : OutputState),
        Output.get_real_space_image T st i = Except.ok (ret, st2) →
        ∀ j, Output.get_intensity_pattern st2 j =
          Output.get_intensity_pattern st j) := by
  obtain ⟨io, amst⟩ := st
  simp only at hamps
  subst hamps
  have hbase : Output.get_real_space_image T ⟨io, some amps⟩ i =
      Except.ok (T (AmpMat.sanitize A),
        ⟨io, some (amps.set i (AmpMat.sanitize A))⟩) := by
    simp only [Output.get_real_space_image, hA]
  refine ⟨hbase, ?_⟩
  intro hfin
  have hs := AmpMat.sanitize_of_allFinite A hfin
  have hset : amps.set i A = amps := list_set_of_get?_eq amps i A hA
  have hpure : Output.get_real_space_image T ⟨io, some amps⟩ i =
      Except.ok (T A, ⟨io, some amps⟩) := by
    rw [hbase, hs, hset]
  refine ⟨hpure, ?_⟩
  intro ret st2 heq j
  rw [hpure] at heq
  cases heq
  rfl

/-- C2 witness: the amended theorem at a concrete all-finite 1×1 amplitude
array, with T the identity. -/
theorem c2_witness :
    ((⟨some ⟨⟨1⟩⟩, some [[[some ((1 : ℚ), (2 : ℚ))]]]⟩ : OutputState).amplitudes =
        some [[[some ((1 : ℚ), (2 : ℚ))]]] ∧
      ([[[some ((1 : ℚ), (2 : ℚ))]]] : List AmpMat).get? 0 =
        some [[some ((1 : ℚ), (2 : ℚ))]] ∧
      AmpMat.allFinite [[some ((1 : ℚ), (2 : ℚ))]] = true) ∧
    Output.get_real_space_image id
        ⟨some ⟨⟨1⟩⟩, some [[[some ((1 : ℚ), (2 : ℚ))]]]⟩ 0 =
      Except.ok ([[some ((1 : ℚ), (2 : ℚ))]],
        ⟨some ⟨⟨1⟩⟩, some [[[some ((1 : ℚ), (2 : ℚ))]]]⟩) :=
  ⟨⟨rfl, rfl, by decide⟩,
   ((c2_real_space_image_sanitizes_in_place id
      ⟨some ⟨⟨1⟩⟩, some [[[some ((1 : ℚ), (2 : ℚ))]]]⟩
      [[[some ((1 : ℚ), (2 : ℚ))]]] 0
      [[some ((1 : ℚ), (2 : ℚ))]] rfl rfl).2 (by decide)).1⟩

/-- C3 (code bug): the keyword lists of Source.__init__ list "pulse_energy"
as required and do not recognize "pulse_energy_mean" at all; the
constructor therefore exits fatally on the input the claim (and the dead
alias branch at source.py lines 50-54) says must be accepted, while the
legacy spelling passes. -/
theorem c3_pulse_energy_mean_rejected :
    sourceInitKeywordCheck ["wavelength", "focus_diameter", "pulse_energy_mean"] =
      ([LogEvent.errorMissingKeyword "pulse_energy"], true) ∧
    sourceInitKeywordCheck ["wavelength", "focus_diameter", "pulse_energy"] =
      ([], false) := by
  exact ⟨by decide, by decide⟩

open MeasureTheory Real in
/-- C4 counterexample: the default profile (no profile_model) is the
constant density 1/(π(d/2)²) at EVERY radius, so over the infinite plane
it is not even integrable (its integral diverges); it does not integrate
to 1.  Shown at focus diameter 2. -/
theorem c4_counterexample :
    ¬ IntegratesToOneOverPlane (get_profile ProfileModel.pnone 2) := by
  intro h
  have hint : Integrable (fun _ : Plane => 1 / (π * ((2 : ℝ) / 2) ^ 2)) volume := h.1
  exact const_not_integrable_plane _ (by positivity) hint

open Real in
/-- C4 (amended): for every positive focus diameter, the radial density
returned by Source.get_profile integrates to 1 over the infinite plane for
the top_hat, pseudo_lorentzian and gaussian variants; the default constant
profile does not (see the counterexample), being normalized only over the
nominal focus disk. -/
theorem c4_profiles_integrate_to_one (d : ℝ) (hd : 0 < d) :
    IntegratesToOneOverPlane (get_profile ProfileModel.top_hat d) ∧
    IntegratesToOneOverPlane (get_profile ProfileModel.pseudo_lorentzian d) ∧
    IntegratesToOneOverPlane (get_profile ProfileModel.gaussian d) := by
  refine ⟨?_, ?_, ?_⟩
  · have h := tophat_integrates_to_one (d / 2) (by positivity)
    have hfun : (fun r : ℝ => if r < d / 2 then 1 / (π * (d / 2) ^ 2) else 0) =
        get_profile ProfileModel.top_hat d := rfl
    rwa [hfun] at h
  · exact lorentzian2d_integrates_to_one (d / 2) (by positivity)
  · have hlog : (0 : ℝ) < Real.log 2 := Real.log_pos (by norm_num)
    exact gaussian2d_integrates_to_one (d / (2 * Real.sqrt (2 * Real.log 2)))
      (by positivity)

/-- C4 witness: the amended theorem at focus diameter 2. -/
theorem c4_witness :
    (0 : ℝ) < 2 ∧
    (IntegratesToOneOverPlane (get_profile ProfileModel.top_hat 2) ∧
     IntegratesToOneOverPlane (get_profile ProfileModel.pseudo_lorentzian 2) ∧
     IntegratesToOneOverPlane (get_profile ProfileModel.gaussian 2)) :=
  ⟨by norm_num, c4_profiles_integrate_to_one 2 (by norm_num)⟩

/-- C5 counterexample: supplying both wavelength and energy does not fail —
the constructor silently uses the wavelength (priority order), logs
nothing, and assigns the energy attribute, contradicting the claim that
more than one constructor keyword is a ConfigurationError. -/
theorem c5_counterexample :
    (photonInit (some 1) (some 5) none).2 = [] ∧
    (photonInit (some 1) (some 5) none).1.energy = some (const_c * const_h / 1) := by
  exact ⟨rfl, rfl⟩

/-- C5 (amended): Photon.__init__ never raises; it checks the keywords in
the priority order wavelength, energy (Joules), energy_eV, uses the first
one present (ignoring the rest) to set the internal energy (c·h/λ, E, and
v·e respectively), and if none is present it logs an error and returns
with the energy attribute unassigned. -/
theorem c5_photon_constructor_priority :
    (∀ (wl : ℚ) (en ev : Option ℚ),
      photonInit (some wl) en ev = (⟨some (const_c * const_h / wl)⟩, [])) ∧
    (∀ (en : ℚ) (ev : Option ℚ),
      photonInit none (some en) ev = (⟨some en⟩, [])) ∧
    (∀ ev : ℚ, photonInit none none (some ev) = (⟨some (ev * const_e)⟩, [])) ∧
    photonInit none none none = (⟨none⟩, [LogEvent.errorPhotonNotInitialized]) := by
  exact ⟨fun wl en ev => rfl, fun en ev => rfl, fun ev => rfl, rfl⟩

/-- C6: get_intensity computes r = √(y²+z²) and returns
profile(r) × pulse_energy converted by unit: unchanged for "J/m2", divided
by the photon energy in Joules for "ph/m2", multiplied by 1e-12 for
"J/um2", multiplied by 1e-9 for "mJ/um2"; any other unit string yields a
logged invalid-unit error and no value. -/
theorem c6_intensity_unit_conversion (s : SourceState) (x y z : ℝ) :
    get_intensity s (x, y, z) "J/m2" =
      (some (get_profile s.profile_model s.focus_diameter
        (Real.sqrt (y ^ 2 + z ^ 2)) * s.pulse_energy), []) ∧
    get_intensity s (x, y, z) "ph/m2" =
      (some (get_profile s.profile_model s.focus_diameter
        (Real.sqrt (y ^ 2 + z ^ 2)) * s.pulse_energy / (s.photon_energy : ℝ)), []) ∧
    get_intensity s (x, y, z) "J/um2" =
      (some (get_profile s.profile_model s.focus_diameter
        (Real.sqrt (y ^ 2 + z ^ 2)) * s.pulse_energy * (1 / 10 ^ 12)), []) ∧
    get_intensity s (x, y, z) "mJ/um2" =
      (some (get_profile s.profile_model s.focus_diameter
        (Real.sqrt (y ^ 2 + z ^ 2)) * s.pulse_energy * (1 / 10 ^ 9)), []) ∧
    (∀ u : String,
      u ∉ (["J/m2", "ph/m2", "J/um2", "mJ/um2"] : List String) →
      get_intensity s (x, y, z) u = (none, [LogEvent.errorInvalidUnit u])) := by
  refine ⟨rfl, rfl, rfl, rfl, ?_⟩
  intro u hu
  simp only [List.mem_cons, List.not_mem_nil, or_false, not_or] at hu
  obtain ⟨h1, h2, h3, h4⟩ := hu
  simp only [get_intensity, if_neg h1, if_neg h2, if_neg h3, if_neg h4]

/-- C6 witness: the invalid-unit branch of the theorem at a concrete source
and the unit string "W/m2". -/
theorem c6_witness :
    ("W/m2" ∉ (["J/m2", "ph/m2", "J/um2", "mJ/um2"] : List String)) ∧
    get_intensity ⟨1, 2, ProfileModel.top_hat, 3⟩ ((0 : ℝ), (0 : ℝ), (0 : ℝ))
        "W/m2" = (none, [LogEvent.errorInvalidUnit "W/m2"]) :=
  ⟨by decide,
   (c6_intensity_unit_conversion ⟨1, 2, ProfileModel.top_hat, 3⟩ 0 0 0).2.2.2.2
     "W/m2" (by decide)⟩

open Real in
/-- C7: for a top_hat source with positive focus diameter, pulse energy and
photon energy, the intensity at the origin is the nonzero value
profile(0) × E / E_photon with profile(0) = 1/(π(d/2)²), while the
intensity at [0, d, d] is zero because r = d√2 lies outside the hard-edge
radius d/2. -/
theorem c7_top_hat_center_nonzero_edge_zero (d E : ℝ) (Eph : ℚ)
    (hd : 0 < d) (hE : 0 < E) (hEph : 0 < Eph) :
    (get_intensity ⟨Eph, d, ProfileModel.top_hat, E⟩ ((0 : ℝ), (0 : ℝ), (0 : ℝ))
        "ph/m2").1 = some (1 / (π * (d / 2) ^ 2) * E / (Eph : ℝ)) ∧
    1 / (π * (d / 2) ^ 2) * E / (Eph : ℝ) ≠ 0 ∧
    (get_intensity ⟨Eph, d, ProfileModel.top_hat, E⟩ ((0 : ℝ), d, d)
        "ph/m2").1 = some 0 := by
  have hEphR : (0 : ℝ) < (Eph : ℝ) := by exact_mod_cast hEph
  have hd2 : (0 : ℝ) < d / 2 := by positivity
  have hr0 : Real.sqrt ((0 : ℝ) ^ 2 + (0 : ℝ) ^ 2) = 0 := by simp
  refine ⟨?_, ?_, ?_⟩
  · simp only [get_intensity, get_profile, hr0]
    simp [hd2]
  · positivity
  · have h1 : Real.sqrt (d ^ 2) ≤ Real.sqrt (d ^ 2 + d ^ 2) :=
      Real.sqrt_le_sqrt (by nlinarith)
    rw [Real.sqrt_sq hd.le] at h1
    have hnot : ¬ (Real.sqrt (d ^ 2 + d ^ 2) < d / 2) := by
      intro hlt
      linarith
    simp only [get_intensity, get_profile]
    simp [hnot]

open Real in
/-- C7 witness: the theorem at focus diameter 2, pulse energy 1 and photon
energy 1. -/
theorem c7_witness :
    ((0 : ℝ) < 2 ∧ (0 : ℝ) < 1 ∧ (0 : ℚ) < 1) ∧
    ((get_intensity ⟨1, 2, ProfileModel.top_hat, 1⟩ ((0 : ℝ), (0 : ℝ), (0 : ℝ))
        "ph/m2").1 = some (1 / (π * ((2 : ℝ) / 2) ^ 2) * 1 / ((1 : ℚ) : ℝ)) ∧
      1 / (π * ((2 : ℝ) / 2) ^ 2) * 1 / ((1 : ℚ) : ℝ) ≠ 0 ∧
      (get_intensity ⟨1, 2, ProfileModel.top_hat, 1⟩ ((0 : ℝ), 2, 2)
        "ph/m2").1 = some 0) :=
  ⟨⟨by norm_num, by norm_num, by norm_num⟩,
   c7_top_hat_center_nonzero_edge_zero 2 1 1 (by norm_num) (by norm_num)
     (by norm_num)⟩

/-- C8 counterexample: an unrecognized sample_type does not exit the
process and leaves the sample attribute unassigned — Input._reconfigure
logs the error and returns normally, contradicting the claim that
construction raises fatally and never yields an Input without a sample. -/
theorem c8_counterexample :
    ¬ ((inputReconfigureSample "not_a_type").exited = true) ∧
    (inputReconfigureSample "not_a_type").sample = none := by
  exact ⟨by decide, by decide⟩

/-- C8 (amended): for every sample_type outside
{uniform_sphere, uniform_spheroid, map3d}, Input._reconfigure logs an
error and returns normally with the sample attribute unassigned, and each
recognized sample_type assigns the corresponding variant. -/
theorem c8_unknown_sample_type_logged_not_fatal :
    (∀ s : String, s ≠ "uniform_sphere" → s ≠ "uniform_spheroid" → s ≠ "map3d" →
      inputReconfigureSample s =
        ⟨none, [LogEvent.errorInvalidSampleType], false⟩) ∧
    inputReconfigureSample "uniform_sphere" = ⟨some SampleVariant.sphere, [], false⟩ ∧
    inputReconfigureSample "uniform_spheroid" = ⟨some SampleVariant.spheroid, [], false⟩ ∧
    inputReconfigureSample "map3d" = ⟨some SampleVariant.map3d, [], false⟩ := by
  refine ⟨?_, by decide, by decide, by decide⟩
  intro s h1 h2 h3
  simp [inputReconfigureSample, h1, h2, h3]

/-- C8 witness: the amended theorem applied to the concrete string
"banana". -/
theorem c8_witness :
    ("banana" ≠ "uniform_sphere" ∧ "banana" ≠ "uniform_spheroid" ∧
     "banana" ≠ "map3d") ∧
    inputReconfigureSample "banana" =
      ⟨none, [LogEvent.errorInvalidSampleType], false⟩ :=
  ⟨⟨by decide, by decide, by decide⟩,
   c8_unknown_sample_type_logged_not_fatal.1 "banana" (by decide) (by decide)
     (by decide)⟩

/-- C9: constructing a Photon from a positive wavelength and reading the
wavelength back returns the same value exactly, since set_wavelength stores
energy = c·h/λ and get_wavelength returns c·h/energy. -/
theorem c9_wavelength_roundtrip (wl : ℚ) (h : 0 < wl) :
    Photon.get_wavelength (photonInit (some wl) none none).1 = Except.ok wl := by
  show Except.ok (const_c * const_h / (const_c * const_h / wl)) = Except.ok wl
  have hch : const_c * const_h ≠ 0 := by
    rw [const_c, const_h]
    norm_num
  have hwl : wl ≠ 0 := ne_of_gt h
  congr 1
  field_simp

/-- C9 witness: the round trip at wavelength 2. -/
theorem c9_witness :
    (0 : ℚ) < 2 ∧
    Photon.get_wavelength (photonInit (some 2) none none).1 = Except.ok 2 :=
  ⟨by norm_num, c9_wavelength_roundtrip 2 (by norm_num)⟩

/-- C10: Output constructed from a non-Input argument does not raise; it
logs an error and returns normally with input_object and amplitudes never
assigned, so every subsequent accessor fails with AttributeError (not a
configuration error). -/
theorem c10_output_init_non_input (propagated : List AmpMat)
    (T : AmpMat → AmpMat) (ratio : InputState → Option ℚ)
    (res : InputState → ℚ) (i : ℕ) :
    (outputInit OutputArg.notInput propagated).2 =
      [LogEvent.errorIllegalInputArgument] ∧
    (outputInit OutputArg.notInput propagated).1.input_object = none ∧
    (outputInit OutputArg.notInput propagated).1.amplitudes = none ∧
    Output.get_intensity_pattern (outputInit OutputArg.notInput propagated).1 i =
      Except.error PyError.attributeError ∧
    Output.get_real_space_image T (outputInit OutputArg.notInput propagated).1 i =
      Except.error PyError.attributeError ∧
    Output.get_linear_sampling_ratio ratio
        (outputInit OutputArg.notInput propagated).1 =
      Except.error PyError.attributeError ∧
    Output.get_full_period_edge_resolution res
        (outputInit OutputArg.notInput propagated).1 =
      Except.error PyError.attributeError ∧
    Except.error (α := RealMat) PyError.attributeError ≠
      Except.error PyError.configurationError := by
  refine ⟨rfl, rfl, rfl, rfl, rfl, rfl, rfl, ?_⟩
  intro h
  cases h

end Condor
